import Mathlib

/-!
Shallow embedding of `custom_components/open_route_service/sensor.py`,
the openroute service travel-time sensor platform.

Modelling conventions:
* Python floats are modelled as exact rationals (`ℚ`).
* JSON responses are modelled as typed structures holding exactly the
  fields the code reads.  List indexing (`routes[0]`, `segments[0]`,
  `features[0]`) is modelled with `List.head?`; a `none` there stands
  for the `IndexError` the Python code would raise at that line.
* A remote call that raises an exception is modelled by the
  corresponding `Env` field being `none`.  `update` then stops exactly
  at the source line where the exception escapes and returns the
  fields mutated so far together with `raised := true`, mirroring the
  order of the attribute assignments in the Python method.
* Python strings are Lean `String`s; `s.split(",")` is `pySplit s ','`
  below (identical semantics for a one-character separator), and
  `[::-1]` is `List.reverse`.
-/

namespace ORS

/-- Helper for `pySplit`: walk the characters, cutting at each separator. -/
def pySplitAux (sep : Char) : List Char → List Char → List String
  | [], acc => [String.mk acc.reverse]
  | c :: cs, acc =>
    if c = sep then String.mk acc.reverse :: pySplitAux sep cs []
    else pySplitAux sep cs (c :: acc)

/-- Python's `s.split(sep)` for a one-character separator: every
occurrence of `sep` cuts, empty pieces are kept, and the empty string
yields `[""]`. -/
def pySplit (s : String) (sep : Char) : List String :=
  pySplitAux sep s.data []

/-- One maneuver step of the directions response; `name` models `step["name"]`. -/
structure Step where
  name : String
deriving DecidableEq, Repr

/-- One segment of a route; `steps` models `segment["steps"]`. -/
structure Segment where
  steps : List Step
deriving DecidableEq, Repr

/-- A route summary; models `route["summary"]["duration"/"distance"]`. -/
structure Summary where
  duration : ℚ
  distance : ℚ
deriving DecidableEq, Repr

/-- One entry of `directions_response["routes"]`. -/
structure RouteEntry where
  summary : Summary
  segments : List Segment
deriving DecidableEq, Repr

/-- The directions response; `metadata_attribution` models
`directions_response["metadata"]["attribution"]`. -/
structure DirectionsResponse where
  metadata_attribution : String
  routes : List RouteEntry
deriving DecidableEq, Repr

/-- A pelias reverse-geocode response; each list entry models one
`features[i]["properties"]["label"]`. -/
structure PeliasResponse where
  features : List String
deriving DecidableEq, Repr

/-- Outcome of the three remote calls of one `update()` run: `none`
means that call raised an exception. -/
structure Env where
  directions : Option DirectionsResponse
  peliasDest : Option PeliasResponse
  peliasOrigin : Option PeliasResponse

/-- A remote call issued through the openrouteservice client. -/
inductive RemoteCall where
  | directions (coords : List String × List String) (profile : String) (preference : String)
  | pelias_reverse (point : List String)
deriving DecidableEq, Repr

/-- The mutable fields of `OpenRouteTravelTimeData`. -/
structure ORSData where
  origin : Option String
  destination : Option String
  travel_mode : String
  route_mode : String
  attribution : Option String
  duration : Option ℚ
  distance : Option ℚ
  route : Option String
  base_time : Option ℚ
  origin_name : Option String
  destination_name : Option String
  units : String
deriving DecidableEq, Repr

/-- Result of one `update()` run: whether an exception escaped, the
object state when control left the method, and the remote calls that
were issued (in order). -/
structure UpdateResult where
  raised : Bool
  data : ORSData
  calls : List RemoteCall
deriving DecidableEq, Repr

/-- `OpenRouteTravelTimeData._get_route_from_steps`: skip the sentinel
name `"-"`, append a name only when it differs from the last appended
name, join with `"; "`. -/
def _get_route_from_steps (steps : List Step) : String :=
  let road_names : List String := steps.foldl
    (fun acc step =>
      if step.name ≠ "-" then
        if acc = [] ∨ acc.getLast? ≠ some step.name then acc ++ [step.name] else acc
      else acc) []
  String.intercalate "; " road_names

/-- `OpenRouteTravelTimeData.update`, line by line.  The guard, the
coordinate reversal, the three remote calls and every attribute
assignment occur in source order, so an exception (`none` in `env`)
leaves exactly the fields assigned before that source line. -/
def update (s : ORSData) (env : Env) : UpdateResult :=
  match s.destination, s.origin with
  | some dest, some orig =>
    let coords := ((pySplit dest ',').reverse, (pySplit orig ',').reverse)
    let dcall := RemoteCall.directions coords s.travel_mode s.route_mode
    match env.directions with
    | none => ⟨true, s, [dcall]⟩
    | some resp =>
      match resp.routes.head? with
      | none => ⟨true, s, [dcall]⟩
      | some route0 =>
        match route0.segments.head? with
        | none => ⟨true, s, [dcall]⟩
        | some seg0 =>
          let s1 : ORSData := { s with
            attribution := some resp.metadata_attribution
            duration := some route0.summary.duration
            distance := some (if s.units = "imperial"
              then route0.summary.distance / 1609.344
              else route0.summary.distance / 1000)
            route := some (_get_route_from_steps seg0.steps) }
          let pdcall := RemoteCall.pelias_reverse (pySplit dest ',').reverse
          match env.peliasDest with
          | none => ⟨true, s1, [dcall, pdcall]⟩
          | some pdResp =>
            let pocall := RemoteCall.pelias_reverse (pySplit orig ',').reverse
            match env.peliasOrigin with
            | none => ⟨true, s1, [dcall, pdcall, pocall]⟩
            | some poResp =>
              match poResp.features.head? with
              | none => ⟨true, s1, [dcall, pdcall, pocall]⟩
              | some oLabel =>
                let s2 : ORSData := { s1 with origin_name := some oLabel }
                match pdResp.features.head? with
                | none => ⟨true, s2, [dcall, pdcall, pocall]⟩
                | some dLabel =>
                  ⟨false, { s2 with destination_name := some dLabel }, [dcall, pdcall, pocall]⟩
  | _, _ => ⟨false, s, []⟩

/-- Python's built-in `round` to an integer: round half to even. -/
def pythonRound (q : ℚ) : ℤ :=
  if q - ⌊q⌋ < 1 / 2 then ⌊q⌋
  else if 1 / 2 < q - ⌊q⌋ then ⌊q⌋ + 1
  else if ⌊q⌋ % 2 = 0 then ⌊q⌋ else ⌊q⌋ + 1

/-- `OpenRouteTravelTimeSensor.state`: the duration rounded to whole
minutes rendered as a string, or `None` before the first fetch. -/
def state (d : ORSData) : Option String :=
  match d.duration with
  | some dur => some (toString (pythonRound (dur / 60)))
  | none => none

/-- The attribute dictionary built by
`OpenRouteTravelTimeSensor.device_state_attributes`; each Python key
becomes a field, `None` values stay `none`. -/
structure Attrs where
  attribution : Option String
  duration : ℚ
  distance : Option ℚ
  route : Option String
  unit_system : String
  origin : Option String
  destination : Option String
  origin_name : Option String
  destination_name : Option String
  mode : String
  route_mode : String
deriving DecidableEq, Repr

/-- `OpenRouteTravelTimeSensor.device_state_attributes`: `None` while
`duration` is `None`, otherwise the full dictionary (whose individual
values may still be `None`). -/
def device_state_attributes (d : ORSData) : Option Attrs :=
  match d.duration with
  | none => none
  | some dur => some {
      attribution := d.attribution
      duration := dur / 60
      distance := d.distance
      route := d.route
      unit_system := d.units
      origin := d.origin
      destination := d.destination
      origin_name := d.origin_name
      destination_name := d.destination_name
      mode := d.travel_mode
      route_mode := d.route_mode }

/-- A Home Assistant entity state as the resolver reads it: the state
string and the latitude/longitude attributes.  `latitude = some s`
models a float-valued `latitude` attribute whose `str()` is `s` (the
`has_location` helper only accepts float-valued attributes). -/
structure EntityState where
  state : String
  latitude : Option String
  longitude : Option String
deriving DecidableEq, Repr

/-- `homeassistant.helpers.location.has_location`: the argument is an
actual state object with float latitude and longitude attributes. -/
def has_location : Option EntityState → Bool
  | none => false
  | some e => e.latitude.isSome && e.longitude.isSome

/-- `OpenRouteTravelTimeSensor._get_location_from_attributes`:
`"{},{}".format(attr.get(latitude), attr.get(longitude))`. -/
def _get_location_from_attributes (e : EntityState) : String :=
  e.latitude.getD "None" ++ "," ++ e.longitude.getD "None"

/-- `OpenRouteTravelTimeSensor._get_location_from_entity`.  A missing
entity logs an error and returns `None`; an entity with location
attributes resolves to them; otherwise a zone named by the entity's
state is tried; otherwise `sensor.*` entities fall back to their raw
state, and every other case falls off the end returning `None`. -/
def _get_location_from_entity (states : String → Option EntityState)
    (entity_id : String) : Option String :=
  match states entity_id with
  | none => none
  | some entity =>
    if has_location (some entity) then
      some (_get_location_from_attributes entity)
    else
      match states ("zone." ++ entity.state) with
      | some zone_entity =>
        if has_location (some zone_entity) then
          some (_get_location_from_attributes zone_entity)
        else if entity_id.startsWith "sensor." then some entity.state
        else none
      | none =>
        if entity_id.startsWith "sensor." then some entity.state
        else none

/-- `OpenRouteTravelTimeSensor.async_update`: when an endpoint was
configured as an entity reference, the fetcher's location field is
assigned the resolver's result (even when that result is `None`),
then `update` runs; the state it leaves behind is returned. -/
def async_update (origin_entity_id destination_entity_id : Option String)
    (states : String → Option EntityState) (d : ORSData) (env : Env) : ORSData :=
  let d1 := match origin_entity_id with
    | some eid => { d with origin := _get_location_from_entity states eid }
    | none => d
  let d2 := match destination_entity_id with
    | some eid => { d1 with destination := _get_location_from_entity states eid }
    | none => d1
  (update d2 env).data

/-- `OpenRouteTravelTimeData.__init__` composed with the sensor
constructor, which stores static origin/destination strings when the
configured value is not an entity reference. -/
def initData (origin destination : Option String)
    (travel_mode route_mode units : String) : ORSData :=
  { origin := origin
    destination := destination
    travel_mode := travel_mode
    route_mode := route_mode
    attribution := none
    duration := none
    distance := none
    route := none
    base_time := none
    origin_name := none
    destination_name := none
    units := units }

/-- One poll cycle as driven by `async_update`: the resolver may
overwrite each endpoint with its (possibly `None`) result — `none`
here means the endpoint is statically configured and untouched — and
then `update` runs against some remote outcome.  Any `Option String`
is a realizable resolver result (a missing entity gives `none`, a
`sensor.*` entity with state `s` gives `some s`). -/
structure Cycle where
  setOrigin : Option (Option String)
  setDest : Option (Option String)
  env : Env

/-- Run one poll cycle. -/
def runCycle (d : ORSData) (c : Cycle) : ORSData :=
  let d1 := match c.setOrigin with
    | some v => { d with origin := v }
    | none => d
  let d2 := match c.setDest with
    | some v => { d1 with destination := v }
    | none => d1
  (update d2 c.env).data

/-- Run a sequence of poll cycles. -/
def runCycles (d : ORSData) (cs : List Cycle) : ORSData :=
  cs.foldl runCycle d

/-- A fetcher state is reachable when some initial configuration and
some sequence of poll cycles produces it. -/
def Reachable (d : ORSData) : Prop :=
  ∃ o de tMode rMode u cs, d = runCycles (initData o de tMode rMode u) cs

/-- The kind of voluptuous marker a schema key carries. -/
inductive VKind where
  | required
  | optKey
  | inclusive (group : String)
  | exclusive (group : String)
deriving DecidableEq, Repr

/-- One key of a voluptuous schema dictionary: the configuration key
string and its marker. -/
structure SchemaEntry where
  key : String
  kind : VKind
deriving DecidableEq, Repr

/-- Python `dict` insertion with voluptuous `Marker` keys: markers hash
and compare by their key string, so inserting a key that is already
present keeps the original marker object (only the validator value,
which we do not model, is replaced). -/
def dictInsert (d : List SchemaEntry) (e : SchemaEntry) : List SchemaEntry :=
  if d.any (fun x => x.key = e.key) then d else d ++ [e]

/-- The schema dictionary literal of `PLATFORM_SCHEMA.extend({...})`
in source order (the inherited base platform keys are disjoint from
these and irrelevant to endpoint validation, so they are omitted). -/
def sensorSchemaLiteral : List SchemaEntry :=
  [ ⟨"api_key", .required⟩
  , ⟨"destination_latitude", .inclusive "destination_coordinates"⟩
  , ⟨"destination_longitude", .inclusive "destination_coordinates"⟩
  , ⟨"destination_latitude", .exclusive "destination"⟩
  , ⟨"destination_entity_id", .exclusive "destination"⟩
  , ⟨"origin_latitude", .inclusive "origin_coordinates"⟩
  , ⟨"origin_longitude", .inclusive "origin_coordinates"⟩
  , ⟨"origin_latitude", .exclusive "origin"⟩
  , ⟨"origin_entity_id", .exclusive "origin"⟩
  , ⟨"name", .optKey⟩
  , ⟨"mode", .optKey⟩
  , ⟨"route_mode", .optKey⟩
  , ⟨"unit_system", .optKey⟩ ]

/-- The schema dictionary after Python evaluates the literal. -/
def platformDict : List SchemaEntry :=
  sensorSchemaLiteral.foldl dictInsert []

/-- voluptuous validation of the marker constraints against the set of
keys present in a configuration (values are assumed individually
valid): `Required` keys must be present, an `Inclusive` group is
all-or-nothing, and at most one key of an `Exclusive` group may be
present. -/
def validateEntries (d : List SchemaEntry) (cfg : List String) : Bool :=
  (d.all fun e => match e.kind with
    | .required => cfg.contains e.key
    | _ => true)
  && (d.all fun e => match e.kind with
    | .inclusive g =>
      if (d.filter (fun x => x.kind = .inclusive g)).any (fun x => cfg.contains x.key)
      then cfg.contains e.key else true
    | _ => true)
  && (d.all fun e => match e.kind with
    | .exclusive g =>
      decide (((d.filter (fun x => x.kind = .exclusive g)).filter
        (fun x => cfg.contains x.key)).length ≤ 1)
    | _ => true)

/-- `PLATFORM_SCHEMA` for this sensor: `vol.All` of the two
`has_at_least_one_key` validators and the extended schema. -/
def platformSchemaAccepts (cfg : List String) : Bool :=
  (cfg.contains "destination_latitude" || cfg.contains "destination_entity_id")
  && (cfg.contains "origin_latitude" || cfg.contains "origin_entity_id")
  && validateEntries platformDict cfg

/-- A directions response fixture: one route with summary
`duration = 90 s`, `distance = 1000 m`, one segment, one named step. -/
def exResponse : DirectionsResponse :=
  { metadata_attribution := "openrouteservice.org, OpenStreetMap contributors"
    routes := [{ summary := { duration := 90, distance := 1000 }
               , segments := [{ steps := [{ name := "Main St" }] }] }] }

/-- All three remote calls succeed. -/
def envSucc : Env :=
  { directions := some exResponse
    peliasDest := some ⟨["Dest Label"]⟩
    peliasOrigin := some ⟨["Origin Label"]⟩ }

/-- The directions call succeeds, the first reverse-geocode call raises. -/
def envFailDest : Env :=
  { directions := some exResponse, peliasDest := none, peliasOrigin := none }

/-- The directions call itself raises. -/
def envNoDir : Env :=
  { directions := none, peliasDest := none, peliasOrigin := none }

/-- The step list of the spec's worked example. -/
def exampleSteps : List Step :=
  [⟨"-"⟩, ⟨"Main St"⟩, ⟨"Main St"⟩, ⟨"Oak Ave"⟩, ⟨"-"⟩, ⟨"Oak Ave"⟩]

/-- The first route of `exResponse`. -/
def exRoute0 : RouteEntry :=
  exResponse.routes.get ⟨0, by decide⟩

/-- The first segment of `exRoute0`. -/
def exSeg0 : Segment :=
  exRoute0.segments.get ⟨0, by decide⟩

/-- A fetcher state in which a previous cycle has populated every
Travel Result field. -/
def sPrev : ORSData :=
  { origin := some "1,2"
    destination := some "3,4"
    travel_mode := "driving-car"
    route_mode := "fastest"
    attribution := some "old attribution"
    duration := some 600
    distance := some 7
    route := some "Old Rd"
    base_time := none
    origin_name := some "Old Origin"
    destination_name := some "Old Dest"
    units := "metric" }

/-- The four directions-derived fields rise and fall together on every
code path of `update`: this is the all-or-nothing core that actually
holds (the two reverse-geocoded name fields are not synchronised with
them). -/
def Sync (d : ORSData) : Prop :=
  d.attribution.isSome = d.duration.isSome ∧
  d.distance.isSome = d.duration.isSome ∧
  d.route.isSome = d.duration.isSome

/-- A state reached by one poll cycle in which the directions call
succeeded but the first reverse-geocode call raised. -/
def dBad : ORSData :=
  runCycles (initData (some "1,2") (some "3,4") "driving-car" "fastest" "metric")
    [⟨none, none, envFailDest⟩]

/-- An environment delivers a directions result when the call returns
and the response has a first route with a first segment; only such a
cycle can (re)assign `duration`. -/
def deliverable (e : Env) : Bool :=
  match e.directions with
  | none => false
  | some r =>
    match r.routes.head? with
    | none => false
    | some r0 => r0.segments.head?.isSome

/-- A fetcher state whose duration has been fetched. -/
def dEx : ORSData :=
  { initData (some "1,2") (some "3,4") "driving-car" "fastest" "metric" with
    duration := some 90 }

/-- A fetcher state holding a location resolved on a previous cycle. -/
def dPrev4 : ORSData :=
  initData (some "1,2") (some "3,4") "driving-car" "fastest" "metric"

/-- The six Travel Result fields of a fetcher state, bundled so that
leaving all of them untouched can be stated as one equality. -/
def resultFields (d : ORSData) :
    Option String × Option ℚ × Option ℚ × Option String × Option String × Option String :=
  (d.attribution, d.duration, d.distance, d.route, d.origin_name, d.destination_name)

/-- A state registry: a device tracker with its own coordinate
attributes whose state names the zone `home`, and that zone with its
own (different) coordinates. -/
def exStates : String → Option EntityState := fun id =>
  if id = "device_tracker.phone" then some ⟨"home", some "1.0", some "2.0"⟩
  else if id = "zone.home" then some ⟨"home", some "3.0", some "4.0"⟩
  else none

/-- A state registry: a device tracker without coordinate attributes
whose state names the zone `home`, which has coordinates. -/
def exStatesZ : String → Option EntityState := fun id =>
  if id = "device_tracker.watch" then some ⟨"home", none, none⟩
  else if id = "zone.home" then some ⟨"home", some "3.0", some "4.0"⟩
  else none

example : pySplit "1,2" ',' = ["1", "2"] := by decide
example : pythonRound ((90 : ℚ) / 60) = 2 := by norm_num [pythonRound]
example : pythonRound ((150 : ℚ) / 60) = 2 := by norm_num [pythonRound]
example : pythonRound ((80 : ℚ) / 60) = 1 := by norm_num [pythonRound]

/-- Claim C3, counterexample: on the step list
`["-", "Main St", "Main St", "Oak Ave", "-", "Oak Ave"]` the code
yields `"Main St; Oak Ave"`, not the claimed
`"Main St; Oak Ave; Oak Ave"`: the duplicate check compares against
the last *appended* name, so a repeat separated only by skipped
sentinel entries is collapsed as well. -/
theorem C3_counterexample :
    _get_route_from_steps exampleSteps ≠ "Main St; Oak Ave; Oak Ave" ∧
    _get_route_from_steps exampleSteps = "Main St; Oak Ave" := by
  decide

/-- Claim C3, amended: for the step list whose names are
`["-", "Main St", "Main St", "Oak Ave", "-", "Oak Ave"]` the derived
route string equals `"Main St; Oak Ave"`: sentinel `"-"` entries are
skipped, and a name is appended only when it differs from the last
appended name, so repeats separated only by sentinel entries are also
collapsed. -/
theorem C3_route_example_amended :
    _get_route_from_steps exampleSteps = "Main St; Oak Ave" := by
  decide

/-- Claim C6: whenever `update` runs with origin or destination unset,
no remote call is issued and the whole state is returned unchanged. -/
theorem C6_update_noop (s : ORSData) (env : Env)
    (h : s.origin = none ∨ s.destination = none) :
    update s env = ⟨false, s, []⟩ := by
  rcases hd : s.destination with _ | dest
  · simp [update, hd]
  · rcases ho : s.origin with _ | orig
    · simp [update, hd, ho]
    · rcases h with h | h
      · rw [ho] at h; cases h
      · rw [hd] at h; cases h

/-- Witness for C6 at a concrete state with an unset origin. -/
theorem C6_witness :
    update (initData none (some "3,4") "driving-car" "fastest" "metric") envSucc
      = ⟨false, initData none (some "3,4") "driving-car" "fastest" "metric", []⟩ :=
  C6_update_noop _ _ (Or.inl rfl)

/-- Claim C7: a successful update stores the response duration
unchanged and the response distance divided by 1609.344 when the
configured unit system is `"imperial"`, by 1000 otherwise. -/
theorem C7_distance_conversion (s : ORSData) (env : Env) (o dd : String)
    (r : DirectionsResponse) (r0 : RouteEntry) (sg : Segment)
    (pd po : PeliasResponse) (dq : ℚ)
    (ho : s.origin = some o) (hd : s.destination = some dd)
    (hr : env.directions = some r) (h0 : r.routes.head? = some r0)
    (hs : r0.segments.head? = some sg)
    (hpd : env.peliasDest = some pd) (hpo : env.peliasOrigin = some po)
    (hdist : r0.summary.distance = dq) :
    (update s env).data.distance
      = some (if s.units = "imperial" then dq / 1609.344 else dq / 1000) ∧
    (update s env).data.duration = some r0.summary.duration := by
  simp only [update, ho, hd, hr, h0, hs, hpd, hpo, hdist]
  split <;> try split
  all_goals simp

/-- Witness for C7: metric configuration, 1000 m, 90 s. -/
theorem C7_witness :
    (update (initData (some "1,2") (some "3,4") "driving-car" "fastest" "metric")
        envSucc).data.distance = some ((1000 : ℚ) / 1000) ∧
    (update (initData (some "1,2") (some "3,4") "driving-car" "fastest" "metric")
        envSucc).data.duration = some 90 := by
  have h := C7_distance_conversion
    (initData (some "1,2") (some "3,4") "driving-car" "fastest" "metric") envSucc
    "1,2" "3,4" exResponse (exResponse.routes.get ⟨0, by decide⟩)
    ((exResponse.routes.get ⟨0, by decide⟩).segments.get ⟨0, by decide⟩)
    ⟨["Dest Label"]⟩ ⟨["Origin Label"]⟩ 1000
    rfl rfl rfl rfl rfl rfl rfl rfl
  simpa using h

/-- Claim C10: `update` sends the directions client the coordinate
pair destination-first, each endpoint's comma-separated components
reversed into longitude-then-latitude order, and then sends exactly
those reversed lists to the two reverse-geocode calls, destination's
first. -/
theorem C10_coordinate_order (s : ORSData) (env : Env) (o dd : String)
    (lat1 lon1 lat2 lon2 : String) (r : DirectionsResponse)
    (r0 : RouteEntry) (sg : Segment) (pd po : PeliasResponse)
    (ho : s.origin = some o) (hd : s.destination = some dd)
    (h1 : pySplit o ',' = [lat1, lon1]) (h2 : pySplit dd ',' = [lat2, lon2])
    (hr : env.directions = some r) (h0 : r.routes.head? = some r0)
    (hs : r0.segments.head? = some sg)
    (hpd : env.peliasDest = some pd) (hpo : env.peliasOrigin = some po) :
    (update s env).calls
      = [RemoteCall.directions ([lon2, lat2], [lon1, lat1]) s.travel_mode s.route_mode,
         RemoteCall.pelias_reverse [lon2, lat2],
         RemoteCall.pelias_reverse [lon1, lat1]] := by
  simp only [update, ho, hd, h1, h2, hr, h0, hs, hpd, hpo]
  split <;> try split
  all_goals simp

/-- Claim C2, counterexample: with every field previously populated,
an update whose directions call succeeds but whose first
reverse-geocode call raises leaves the method by exception having
already overwritten `duration` — the three remote calls are not
atomic with respect to failure. -/
theorem C2_counterexample :
    (update sPrev envFailDest).raised = true ∧
    (update sPrev envFailDest).data.duration ≠ sPrev.duration := by
  decide

/-- Claim C2, amended: if the directions call raises, every Travel
Result field is left untouched; if a reverse-geocode call raises,
`attribution`, `duration`, `distance` and `route` have already been
overwritten from the directions response while `origin_name` and
`destination_name` keep their prior values; on a fully successful
update every field is overwritten wholesale. -/
theorem C2_failure_atomicity_amended (s : ORSData) (env : Env) :
    (env.directions = none → (update s env).data = s) ∧
    (∀ o dd r r0 sg, s.origin = some o → s.destination = some dd →
      env.directions = some r → r.routes.head? = some r0 →
      r0.segments.head? = some sg →
      (env.peliasDest = none ∨ env.peliasOrigin = none) →
      (update s env).raised = true ∧
      (update s env).data.attribution = some r.metadata_attribution ∧
      (update s env).data.duration = some r0.summary.duration ∧
      (update s env).data.distance = some (if s.units = "imperial"
        then r0.summary.distance / 1609.344 else r0.summary.distance / 1000) ∧
      (update s env).data.route = some (_get_route_from_steps sg.steps) ∧
      (update s env).data.origin_name = s.origin_name ∧
      (update s env).data.destination_name = s.destination_name) ∧
    (∀ o dd r r0 sg pd po l1 l2, s.origin = some o → s.destination = some dd →
      env.directions = some r → r.routes.head? = some r0 →
      r0.segments.head? = some sg →
      env.peliasDest = some pd → env.peliasOrigin = some po →
      po.features.head? = some l1 → pd.features.head? = some l2 →
      (update s env).raised = false ∧
      (update s env).data.attribution = some r.metadata_attribution ∧
      (update s env).data.duration = some r0.summary.duration ∧
      (update s env).data.distance = some (if s.units = "imperial"
        then r0.summary.distance / 1609.344 else r0.summary.distance / 1000) ∧
      (update s env).data.route = some (_get_route_from_steps sg.steps) ∧
      (update s env).data.origin_name = some l1 ∧
      (update s env).data.destination_name = some l2) := by
  refine ⟨?_, ?_, ?_⟩
  · intro h
    rcases hd : s.destination with _ | dest
    · simp [update, hd]
    · rcases ho : s.origin with _ | orig
      · simp [update, hd, ho]
      · simp [update, hd, ho, h]
  · intro o dd r r0 sg ho hd hr h0 hs hfail
    rcases hfail with hf | hf
    · simp only [update, ho, hd, hr, h0, hs, hf]
      simp
    · rcases hpd : env.peliasDest with _ | pd
      · simp only [update, ho, hd, hr, h0, hs, hpd]
        simp
      · simp only [update, ho, hd, hr, h0, hs, hpd, hf]
        simp
  · intro o dd r r0 sg pd po l1 l2 ho hd hr h0 hs hpd hpo hl1 hl2
    simp only [update, ho, hd, hr, h0, hs, hpd, hpo, hl1, hl2]
    simp

/-- Witness for C2: at `sPrev`, a raising directions call leaves the
state untouched, a raising reverse-geocode call leaves the old origin
name in place, and a fully successful update overwrites it. -/
theorem C2_witness :
    (update sPrev envNoDir).data = sPrev ∧
    (update sPrev envFailDest).data.origin_name = some "Old Origin" ∧
    (update sPrev envSucc).data.origin_name = some "Origin Label" := by
  refine ⟨(C2_failure_atomicity_amended sPrev envNoDir).1 rfl, ?_, ?_⟩
  · have h := (C2_failure_atomicity_amended sPrev envFailDest).2.1
      "1,2" "3,4" exResponse exRoute0 exSeg0 rfl rfl rfl rfl rfl (Or.inl rfl)
    exact h.2.2.2.2.2.1.trans rfl
  · have h := (C2_failure_atomicity_amended sPrev envSucc).2.2
      "1,2" "3,4" exResponse exRoute0 exSeg0 ⟨["Dest Label"]⟩ ⟨["Origin Label"]⟩
      "Origin Label" "Dest Label" rfl rfl rfl rfl rfl rfl rfl rfl rfl
    exact h.2.2.2.2.2.1

/-- `update` keeps the four directions-derived fields synchronised:
each code path either leaves all of them alone or assigns all four. -/
theorem sync_update (d : ORSData) (env : Env) (h : Sync d) :
    Sync (update d env).data := by
  unfold update
  repeat' split
  all_goals simp_all [Sync]

/-- One poll cycle keeps the four directions-derived fields
synchronised (the resolver only touches `origin`/`destination`). -/
theorem sync_runCycle (d : ORSData) (c : Cycle) (h : Sync d) :
    Sync (runCycle d c) := by
  unfold runCycle
  apply sync_update
  rcases c.setOrigin with _ | v <;> rcases c.setDest with _ | w <;> simp_all [Sync]

/-- Any sequence of poll cycles keeps the four directions-derived
fields synchronised. -/
theorem sync_runCycles (cs : List Cycle) :
    ∀ d : ORSData, Sync d → Sync (runCycles d cs) := by
  induction cs with
  | nil => intro d h; exact h
  | cons c cs ih =>
    intro d h
    simpa [runCycles, List.foldl] using ih _ (sync_runCycle d c h)

/-- Claim C1, amended: at every reachable state the sensor state and
the attribute dictionary appear or disappear together, and with them
the fields `attribution`, `duration`, `distance` and `route` — but
`origin_name` and `destination_name` are not part of this
all-or-nothing set: they may be `None` inside an exposed attribute
dictionary after a partially failed update. -/
theorem C1_exposure_amended (d : ORSData) (h : Reachable d) :
    (d.duration = none → state d = none ∧ device_state_attributes d = none) ∧
    (∀ dur : ℚ, d.duration = some dur → state d ≠ none ∧
      ∃ a : Attrs, device_state_attributes d = some a ∧
        a.attribution ≠ none ∧ a.distance ≠ none ∧ a.route ≠ none) := by
  have hsync : Sync d := by
    obtain ⟨o, de, tMode, rMode, u, cs, rfl⟩ := h
    exact sync_runCycles cs _ (by simp [Sync, initData])
  obtain ⟨h1, h2, h3⟩ := hsync
  constructor
  · intro hdur
    exact ⟨by simp [state, hdur], by simp [device_state_attributes, hdur]⟩
  · intro dur hdur
    rw [hdur] at h1 h2 h3
    have ha : device_state_attributes d = some ⟨d.attribution, dur / 60, d.distance,
        d.route, d.units, d.origin, d.destination, d.origin_name, d.destination_name,
        d.travel_mode, d.route_mode⟩ := by
      simp [device_state_attributes, hdur]
    exact ⟨by simp [state, hdur], _, ha, Option.ne_none_iff_isSome.mpr h1,
      Option.ne_none_iff_isSome.mpr h2, Option.ne_none_iff_isSome.mpr h3⟩

/-- Witness for C1: the freshly configured state is reachable, has no
duration, and exposes neither a sensor state nor attributes. -/
theorem C1_witness :
    state (initData none none "driving-car" "fastest" "metric") = none ∧
    device_state_attributes (initData none none "driving-car" "fastest" "metric") = none :=
  (C1_exposure_amended _ ⟨none, none, "driving-car", "fastest", "metric", [], rfl⟩).1 rfl

/-- Claim C1, counterexample: `dBad` is reachable (one cycle whose
reverse-geocode call raised after a successful directions call), its
sensor state is defined, and the exposed attribute dictionary carries
`origin_name = None` — a partial Travel Result is exposed. -/
theorem C1_counterexample :
    Reachable dBad ∧ state dBad ≠ none ∧
    (device_state_attributes dBad).map Attrs.origin_name = some none :=
  ⟨⟨some "1,2", some "3,4", "driving-car", "fastest", "metric",
    [⟨none, none, envFailDest⟩], rfl⟩, by decide, by decide⟩

/-- When the environment delivers no directions result, `update`
leaves `duration` unchanged. -/
theorem update_duration_of_not_deliverable (d : ORSData) (env : Env)
    (h : deliverable env = false) :
    (update d env).data.duration = d.duration := by
  rcases hd : d.destination with _ | dest
  · simp [update, hd]
  · rcases ho : d.origin with _ | orig
    · simp [update, hd, ho]
    · rcases hr : env.directions with _ | r
      · simp [update, hd, ho, hr]
      · simp only [deliverable, hr] at h
        rcases h0 : r.routes.head? with _ | r0
        · simp [update, hd, ho, hr, h0]
        · simp only [h0] at h
          rcases hs : r0.segments.head? with _ | sg
          · simp [update, hd, ho, hr, h0, hs]
          · rw [hs] at h
            simp at h

/-- A poll cycle whose environment delivers no directions result
leaves `duration` unchanged. -/
theorem runCycle_duration_of_not_deliverable (d : ORSData) (c : Cycle)
    (h : deliverable c.env = false) :
    (runCycle d c).duration = d.duration := by
  unfold runCycle
  rw [update_duration_of_not_deliverable _ _ h]
  rcases c.setOrigin with _ | v <;> rcases c.setDest with _ | w <;> simp

/-- A run all of whose cycles deliver no directions result keeps
`duration = none`. -/
theorem runCycles_duration_none (cs : List Cycle) :
    ∀ d : ORSData, d.duration = none →
      (∀ c ∈ cs, deliverable c.env = false) →
      (runCycles d cs).duration = none := by
  induction cs with
  | nil => intro d h _; exact h
  | cons c cs ih =>
    intro d h hall
    have hc : deliverable c.env = false := hall c (List.mem_cons_self c cs)
    have hstep : (runCycle d c).duration = none :=
      (runCycle_duration_of_not_deliverable d c hc).trans h
    simpa [runCycles, List.foldl] using
      ih (runCycle d c) hstep (fun x hx => hall x (List.mem_cons_of_mem c hx))

/-- Claim C8: whenever a duration is held, the displayed state is
`str(round(duration / 60))` with Python's round-half-to-even; and as
long as no fetch has delivered a directions result, the displayed
state stays `None`. -/
theorem C8_displayed_state :
    (∀ (d : ORSData) (dur : ℚ), d.duration = some dur →
      state d = some (toString (pythonRound (dur / 60)))) ∧
    (∀ (o de : Option String) (tMode rMode u : String) (cs : List Cycle),
      (∀ c ∈ cs, deliverable c.env = false) →
      state (runCycles (initData o de tMode rMode u) cs) = none) := by
  constructor
  · intro d dur hdur
    simp [state, hdur]
  · intro o de tMode rMode u cs hall
    have h := runCycles_duration_none cs (initData o de tMode rMode u) rfl hall
    simp [state, h]

/-- Witness for C8: a fetched 90-second duration displays as
`round(90 / 60)` rendered to a string, and a trace whose only cycle's
directions call raised still displays `None`. -/
theorem C8_witness :
    state dEx = some (toString (pythonRound ((90 : ℚ) / 60))) ∧
    state (runCycles (initData none none "driving-car" "fastest" "metric")
      [⟨none, none, envNoDir⟩]) = none := by
  refine ⟨C8_displayed_state.1 dEx 90 rfl,
    C8_displayed_state.2 none none "driving-car" "fastest" "metric"
      [⟨none, none, envNoDir⟩] ?_⟩
  intro c hc
  rw [List.mem_singleton] at hc
  subst hc
  rfl

/-- Claim C4, counterexample: the fetcher holds a location resolved on
a previous cycle, the referenced entity is now missing, and
`async_update` overwrites the location with `None` — it is not left at
its previous value. -/
theorem C4_counterexample :
    dPrev4.origin = some "1,2" ∧
    (async_update (some "device_tracker.gone") none (fun _ => none)
      dPrev4 envNoDir).origin = none := by
  decide

/-- Claim C4, amended: when a referenced origin or destination entity
cannot be found, `async_update` raises no exception and *assigns
`None`* to the corresponding location field for that cycle (rather
than leaving it at its previous value); with that endpoint `None` the
remote update is then a no-op, so all six Travel Result fields are
left unchanged.  The first conjunct covers a missing origin entity
(destination statically configured or entity-configured alike), the
second a missing destination entity (origin statically configured or
entity-configured alike). -/
theorem C4_missing_entity_amended (d : ORSData) (env : Env)
    (states : String → Option EntityState) :
    (∀ eid dRef, states eid = none →
      (async_update (some eid) dRef states d env).origin = none ∧
      resultFields (async_update (some eid) dRef states d env) = resultFields d) ∧
    (∀ eid oRef, states eid = none →
      (async_update oRef (some eid) states d env).destination = none ∧
      resultFields (async_update oRef (some eid) states d env) = resultFields d) := by
  constructor
  · intro eid dRef h
    have ho : _get_location_from_entity states eid = none := by
      simp [_get_location_from_entity, h]
    rcases dRef with _ | eid2
    · rcases hdd : d.destination with _ | dest <;>
        simp [async_update, ho, update, hdd, resultFields]
    · rcases h2 : _get_location_from_entity states eid2 with _ | loc <;>
        simp [async_update, ho, h2, update, resultFields]
  · intro eid oRef h
    have hd : _get_location_from_entity states eid = none := by
      simp [_get_location_from_entity, h]
    rcases oRef with _ | eid2
    · rcases hoo : d.origin with _ | orig <;>
        simp [async_update, hd, update, hoo, resultFields]
    · rcases h2 : _get_location_from_entity states eid2 with _ | loc <;>
        simp [async_update, hd, h2, update, resultFields]

/-- Witness for C4 with a registry holding no entities at all: a
missing origin entity clears the origin, a missing destination entity
clears the destination, and in both runs every Travel Result field of
`dPrev4` is untouched. -/
theorem C4_witness :
    ((async_update (some "device_tracker.gone") none (fun _ => none)
        dPrev4 envSucc).origin = none ∧
      resultFields (async_update (some "device_tracker.gone") none (fun _ => none)
        dPrev4 envSucc) = resultFields dPrev4) ∧
    ((async_update none (some "device_tracker.gone") (fun _ => none)
        dPrev4 envSucc).destination = none ∧
      resultFields (async_update none (some "device_tracker.gone") (fun _ => none)
        dPrev4 envSucc) = resultFields dPrev4) :=
  ⟨(C4_missing_entity_amended dPrev4 envSucc (fun _ => none)).1
      "device_tracker.gone" none rfl,
   (C4_missing_entity_amended dPrev4 envSucc (fun _ => none)).2
      "device_tracker.gone" none rfl⟩

/-- Claim C5, counterexample: the tracker's state names `zone.home`,
which carries coordinates `3.0,4.0`, yet the resolver returns the
tracker's own coordinate attributes `1.0,2.0`: an entity's own
location attributes take precedence over the zone named by its
state. -/
theorem C5_counterexample :
    _get_location_from_entity exStates "device_tracker.phone" = some "1.0,2.0" ∧
    _get_location_from_entity exStates "device_tracker.phone" ≠ some "3.0,4.0" ∧
    has_location (exStates "zone.home") = true := by
  decide

/-- Claim C5, amended: for an entity reference whose entity carries no
coordinate attributes of its own and whose state names a zone that
does carry them, the resolved location string is that zone's
`"lat,lon"`. -/
theorem C5_zone_resolution_amended (states : String → Option EntityState)
    (eid : String) (e z : EntityState) (zlat zlon : String)
    (he : states eid = some e)
    (hno : (e.latitude.isSome && e.longitude.isSome) = false)
    (hz : states ("zone." ++ e.state) = some z)
    (hzlat : z.latitude = some zlat) (hzlon : z.longitude = some zlon) :
    _get_location_from_entity states eid = some (zlat ++ "," ++ zlon) := by
  simp only [_get_location_from_entity, he, has_location, hno, hz]
  simp [_get_location_from_attributes, hzlat, hzlon]

/-- Witness for C5: a tracker without coordinates sitting in
`zone.home` resolves to the zone's coordinates. -/
theorem C5_witness :
    _get_location_from_entity exStatesZ "device_tracker.watch"
      = some ("3.0" ++ "," ++ "4.0") :=
  C5_zone_resolution_amended exStatesZ "device_tracker.watch"
    ⟨"home", none, none⟩ ⟨"home", some "3.0", some "4.0"⟩ "3.0" "4.0"
    rfl rfl (by decide) rfl rfl

/-- Claim C9: evaluation of the platform schema at the offending
configuration.  A configuration supplying, for the destination, both
the full coordinate pair and an entity reference is *accepted*, because
the `vol.Exclusive` marker for `destination_latitude` is silently
dropped when the schema dictionary literal is evaluated (voluptuous
markers hash and compare by their key string, so it collides with the
`vol.Inclusive` marker for the same key); the declared mutual
exclusivity therefore never takes effect.  Supplying neither is
rejected, as claimed, by `has_at_least_one_key`. -/
theorem C9_schema_eval :
    platformSchemaAccepts ["api_key", "destination_latitude", "destination_longitude",
      "destination_entity_id", "origin_latitude", "origin_longitude"] = true ∧
    platformSchemaAccepts ["api_key", "origin_latitude", "origin_longitude"] = false := by
  decide

/-- Witness for C10 with origin `"1,2"` and destination `"3,4"`. -/
theorem C10_witness :
    (update (initData (some "1,2") (some "3,4") "driving-car" "fastest" "metric")
        envSucc).calls
      = [RemoteCall.directions (["4", "3"], ["2", "1"]) "driving-car" "fastest",
         RemoteCall.pelias_reverse ["4", "3"],
         RemoteCall.pelias_reverse ["2", "1"]] := by
  have h := C10_coordinate_order
    (initData (some "1,2") (some "3,4") "driving-car" "fastest" "metric") envSucc
    "1,2" "3,4" "1" "2" "3" "4" exResponse (exResponse.routes.get ⟨0, by decide⟩)
    ((exResponse.routes.get ⟨0, by decide⟩).segments.get ⟨0, by decide⟩)
    ⟨["Dest Label"]⟩ ⟨["Origin Label"]⟩
    rfl rfl (by decide) (by decide) rfl rfl rfl rfl rfl
  simpa using h

end ORS
